import Mathlib

/-!
Shallow embedding of `src/lib.rs` of the `multithreading-rs` crate: a
fixed-size thread pool (`ThreadPool`) with a shared mpsc channel of
`Message`s consumed by `Worker` background threads.

Modelling choices (all taken from the source, not the spec):
* Jobs are opaque closures in Rust; here a job is identified by a `Nat` id
  and "executing" a job appends its id to an `executed` trace.
* The mpsc channel is modelled by its FIFO buffer (`queue`).  A `send`
  succeeds iff the `Receiver` is still allocated; the receiver is held only
  by the worker-thread closures (each through an `Arc` clone, created in
  `ThreadPool::new`), so the receiver is alive iff at least one worker
  thread is still in its receive loop.  `alive` counts those threads.
* Worker threads consume the queue front-to-back; each `NewJob` message is
  executed by whichever thread dequeued it and each `Terminate` makes one
  thread exit its loop.  Which particular thread dequeues a message is
  scheduler-dependent in Rust, but the aggregate dequeue order, the set of
  executed jobs and the final number of live threads are determined by the
  FIFO discipline; the model computes exactly those determined quantities.
* `panic!` / failed `unwrap()` is `Outcome.panicked`; a `join` that would
  block forever is `Outcome.deadlock`.
* `println!` lines (emitted only when the debug flag is set) become
  `LogEvent`s in a `log` trace.  The worker-id and elapsed-time text inside
  those lines is scheduler/clock-dependent and is not part of the events.
-/

namespace Multithreading

/-- The `Message` enum (src/lib.rs lines 11-14): a job or a terminate signal. -/
inductive Message where
  | NewJob (job : Nat)
  | Terminate
deriving DecidableEq, Repr

/-- The `Worker` struct (src/lib.rs lines 98-101): an id and an optional
thread handle, `some ()` while the `JoinHandle` is held, `none` after
`Option::take`. -/
structure Worker where
  id : Nat
  thread : Option Unit
deriving DecidableEq, Repr

/-- The `ThreadPool` struct fields that carry state (src/lib.rs lines 4-9).
The `sender` field is represented by the channel state inside `SysState`. -/
structure ThreadPool where
  workers : List Worker
  debug : Bool
  is_running : Bool
deriving DecidableEq, Repr

/-- Debug log lines printed by the code, as abstract events.  The events
correspond to the `println!` calls in `Drop for ThreadPool` and in the
worker loop of `Worker::new`. -/
inductive LogEvent where
  | sendingTerminateAll
  | shuttingDownAll
  | shuttingDownWorker (id : Nat)
  | gotJob
  | finishedJob
  | toldTerminate
deriving DecidableEq, Repr

/-- The whole system: the pool struct, the channel buffer (FIFO, head is
the oldest message), the number of worker threads still in their receive
loop, the debug flag captured by every worker closure (uniform across
workers: both constructors pass the same flag to each `Worker::new`), the
trace of executed job ids in dequeue order, and the debug log. -/
structure SysState where
  pool : ThreadPool
  queue : List Message
  alive : Nat
  workerDebug : Bool
  executed : List Nat
  log : List LogEvent
deriving DecidableEq, Repr

/-- Result of running a pool operation: normal return, a Rust `panic!`
(carrying the state at the panic point), or blocking forever. -/
inductive Outcome where
  | ok (st : SysState)
  | panicked (msg : String) (st : SysState)
  | deadlock (st : SysState)
deriving DecidableEq, Repr

/-- A freshly spawned worker: `Worker { id, thread: Some(thread) }`
(src/lib.rs lines 131-134). -/
def mkWorker (id : Nat) : Worker := { id := id, thread := some () }

/-- `ThreadPool::new(size)` (src/lib.rs lines 17-32): `assert!(size > 0)`
panics on `size = 0` (modelled as `none`); otherwise spawns `size` workers
with ids `0..size`, all sharing the receiver, with `debug = false` and
`is_running = true`. -/
def ThreadPool.new (size : Nat) : Option SysState :=
  if size = 0 then none
  else some
    { pool := { workers := (List.range size).map mkWorker
                debug := false
                is_running := true }
      queue := []
      alive := size
      workerDebug := false
      executed := []
      log := [] }

/-- `ThreadPool::new_with_debug(size)` (src/lib.rs lines 34-49): identical
to `new` except every worker gets `debug = true` and the pool stores
`debug = true`. -/
def ThreadPool.new_with_debug (size : Nat) : Option SysState :=
  if size = 0 then none
  else some
    { pool := { workers := (List.range size).map mkWorker
                debug := true
                is_running := true }
      queue := []
      alive := size
      workerDebug := true
      executed := []
      log := [] }

/-- The panic message of `execute` on a joined pool (src/lib.rs line 55). -/
def execMsgShutdown : String :=
  "ThreadPool shutted down.\nUsed ThreadPool::join() and then ThreadPool::execute().\nThis can not be done."

/-- The panic raised by `.unwrap()` on a failed `send` (receiver already
deallocated because every worker thread has exited). -/
def sendFailMsg : String :=
  "called `Result::unwrap()` on an `Err` value: SendError"

/-- `ThreadPool::execute(f)` (src/lib.rs lines 50-59): panic if the pool is
not running; otherwise box the job and `send(Message::NewJob(job)).unwrap()`.
The send succeeds iff some worker thread still holds the receiver. -/
def SysState.execute (st : SysState) (job : Nat) : Outcome :=
  if st.pool.is_running = false then
    Outcome.panicked execMsgShutdown st
  else if st.alive = 0 then
    Outcome.panicked sendFailMsg st
  else
    Outcome.ok { st with queue := st.queue ++ [Message.NewJob job] }

/-- The two `println!` lines in the `NewJob` arm of the worker loop
(src/lib.rs lines 110-121), emitted only when the worker's debug flag is
set. -/
def jobEvents (b : Bool) : List LogEvent :=
  if b then [LogEvent.gotJob, LogEvent.finishedJob] else []

/-- The `println!` line in the `Terminate` arm of the worker loop
(src/lib.rs lines 123-126), emitted only when the worker's debug flag is
set. -/
def termEvents (b : Bool) : List LogEvent :=
  if b then [LogEvent.toldTerminate] else []

/-- The worker loop of `Worker::new` (src/lib.rs lines 104-135), run to
quiescence by the pool's worker threads collectively: while some thread is
still in its loop, the oldest message is dequeued (the receiver endpoint is
locked, so dequeues are serialized and FIFO); a `NewJob` is executed by the
dequeuing thread, a `Terminate` makes that thread break out of its loop.
Messages left after every thread has exited stay in the buffer. -/
def drainAux : List Message → SysState → SysState
  | [], st => st
  | m :: rest, st =>
    if st.alive = 0 then { st with queue := m :: rest }
    else
      match m with
      | Message.NewJob j =>
          drainAux rest { st with
            executed := st.executed ++ [j]
            log := st.log ++ jobEvents st.workerDebug }
      | Message.Terminate =>
          drainAux rest { st with
            alive := st.alive - 1
            log := st.log ++ termEvents st.workerDebug }

/-- Run the worker threads on the current channel buffer until it is empty
or every thread has exited. -/
def SysState.drain (st : SysState) : SysState :=
  drainAux st.queue { st with queue := [] }

/-- One iteration of the shutdown loop body
`if let Some(thread) = worker.thread.take() { thread.join().unwrap(); }`
(src/lib.rs lines 66-68 and 92-94): returns the updated worker and whether
an actual thread join happened. -/
def Worker.takeJoin (w : Worker) : Worker × Bool :=
  match w.thread with
  | some _ => ({ w with thread := none }, true)
  | none => (w, false)

/-- The second loop of `ThreadPool::join` (src/lib.rs lines 65-69), over
the workers in vector (= id) order: take the thread handle and block on
`join()`.  The blocking is modelled by requiring the channel to be drained
beforehand (`st2` is the drained state); a thread that never exits while
its handle is still held blocks the loop forever.  Finally `is_running`
is set to false (line 70). -/
def joinPhase2 (st2 : SysState) : Outcome :=
  if st2.alive ≠ 0 ∧ st2.pool.workers.any (fun w => w.thread.isSome) then
    Outcome.deadlock st2
  else
    Outcome.ok { st2 with
      pool := { st2.pool with
        workers := st2.pool.workers.map (fun w => w.takeJoin.1)
        is_running := false } }

/-- `ThreadPool::join` (src/lib.rs lines 60-71).  First loop: one
`send(Message::Terminate).unwrap()` per worker — the first send panics if
the receiver is already deallocated (every worker thread already exited);
otherwise at least one thread is alive at each of the sends (at most k
workers have exited once k Terminates are in flight), so all of them
succeed.  Then the worker threads consume the channel and the second loop
reaps them. -/
def SysState.join (st : SysState) : Outcome :=
  if st.pool.workers.length ≠ 0 ∧ st.alive = 0 then
    Outcome.panicked sendFailMsg st
  else
    joinPhase2 (SysState.drain { st with
      queue := st.queue ++ List.replicate st.pool.workers.length Message.Terminate })

/-- The reaping loop of `Drop for ThreadPool` (src/lib.rs lines 88-95):
log each worker id when debug is on, take the handle and block on
`join()`.  Same blocking model as `joinPhase2`; `is_running` is not
modified (the pool is gone afterwards). -/
def dropPhase2 (st2 : SysState) : Outcome :=
  if st2.alive ≠ 0 ∧ st2.pool.workers.any (fun w => w.thread.isSome) then
    Outcome.deadlock st2
  else
    Outcome.ok { st2 with
      pool := { st2.pool with
        workers := st2.pool.workers.map (fun w => w.takeJoin.1) }
      log := if st2.pool.debug then
          st2.log ++ st2.pool.workers.map (fun w => LogEvent.shuttingDownWorker w.id)
        else st2.log }

/-- `Drop for ThreadPool` after its first debug line (src/lib.rs lines
79-95): return early if the pool is no longer running, otherwise
broadcast one `Terminate` per worker (same send semantics as in `join`)
and reap every worker in vector order. -/
def SysState.dropBody (st0 : SysState) : Outcome :=
  if st0.pool.is_running = false then
    Outcome.ok st0
  else if st0.pool.workers.length ≠ 0 ∧ st0.alive = 0 then
    Outcome.panicked sendFailMsg st0
  else
    dropPhase2 (SysState.drain { st0 with
      queue := st0.queue ++ List.replicate st0.pool.workers.length Message.Terminate
      log := if st0.pool.debug then st0.log ++ [LogEvent.shuttingDownAll] else st0.log })

/-- `Drop for ThreadPool` (src/lib.rs lines 74-97): the first debug line
is printed before the `is_running` early-return check. -/
def SysState.drop (st : SysState) : Outcome :=
  SysState.dropBody { st with
    log := if st.pool.debug then st.log ++ [LogEvent.sendingTerminateAll] else st.log }

/-- A client-visible pool operation. -/
inductive Cmd where
  | exec (j : Nat)
  | joinPool
  | dropPool
deriving DecidableEq, Repr

/-- Run one pool operation. -/
def runCmd (st : SysState) : Cmd → Outcome
  | Cmd.exec j => st.execute j
  | Cmd.joinPool => st.join
  | Cmd.dropPool => st.drop

/-- Run a sequence of pool operations; a panic or a hang stops the
program. -/
def runCmds (st : SysState) : List Cmd → Outcome
  | [] => Outcome.ok st
  | c :: cs =>
    match runCmd st c with
    | Outcome.ok st1 => runCmds st1 cs
    | o => o

/-- The debug log emitted by `n` consecutive `NewJob` dequeues. -/
def jobsEvents (b : Bool) : Nat → List LogEvent
  | 0 => []
  | n + 1 => jobEvents b ++ jobsEvents b n

/-- The debug log emitted by `n` consecutive `Terminate` dequeues. -/
def termsEvents (b : Bool) : Nat → List LogEvent
  | 0 => []
  | n + 1 => termEvents b ++ termsEvents b n

/-- Erase the debug flag of the pool struct. -/
def ThreadPool.stripDebug (p : ThreadPool) : ThreadPool := { p with debug := false }

/-- Erase everything the debug flags can influence: both flags and the
log.  Two states with the same `strip` image dispatch the same jobs, hold
the same messages and workers, and answer every operation alike. -/
def SysState.strip (st : SysState) : SysState :=
  { st with pool := st.pool.stripDebug, workerDebug := false, log := [] }

/-- `strip` lifted to outcomes. -/
def Outcome.strip : Outcome → Outcome
  | Outcome.ok st => Outcome.ok st.strip
  | Outcome.panicked m st => Outcome.panicked m st.strip
  | Outcome.deadlock st => Outcome.deadlock st.strip

/-- The state produced by `ThreadPool::new(1)`. -/
def pool1 : SysState :=
  { pool := { workers := [{ id := 0, thread := some () }], debug := false, is_running := true }
    queue := []
    alive := 1
    workerDebug := false
    executed := []
    log := [] }

/-- The state of that pool after `join()`: the worker consumed its
`Terminate`, its thread was reaped, and the pool is no longer running. -/
def joined1 : SysState :=
  { pool := { workers := [{ id := 0, thread := none }], debug := false, is_running := false }
    queue := []
    alive := 0
    workerDebug := false
    executed := []
    log := [] }

/-- A pool that still believes it is running although its single worker
thread has already exited (the situation the source reaches when a job
panics and kills the worker): no holder of the receiver endpoint is left. -/
def orphanedPool : SysState :=
  { pool := { workers := [{ id := 0, thread := some () }], debug := false, is_running := true }
    queue := []
    alive := 0
    workerDebug := false
    executed := []
    log := [] }

/-- The size-1 pool with one job already enqueued via `execute(7)`. -/
def poolWithJob : SysState :=
  { pool := { workers := [{ id := 0, thread := some () }], debug := false, is_running := true }
    queue := [Message.NewJob 7]
    alive := 1
    workerDebug := false
    executed := []
    log := [] }

/- Helper lemmas about the worker loop and the shutdown phases. -/

lemma Worker.takeJoin_fst (w : Worker) : w.takeJoin.1 = { w with thread := none } := by
  rcases w with ⟨i, t⟩
  cases t <;> rfl

lemma drainAux_nil (st : SysState) : drainAux [] st = st := rfl

lemma drainAux_newJob (j : Nat) (rest : List Message) (st : SysState)
    (h : ¬st.alive = 0) :
    drainAux (Message.NewJob j :: rest) st
      = drainAux rest { st with
          executed := st.executed ++ [j]
          log := st.log ++ jobEvents st.workerDebug } := by
  simp [drainAux, h]

lemma drainAux_terminate (rest : List Message) (st : SysState)
    (h : ¬st.alive = 0) :
    drainAux (Message.Terminate :: rest) st
      = drainAux rest { st with
          alive := st.alive - 1
          log := st.log ++ termEvents st.workerDebug } := by
  simp [drainAux, h]

/-- While at least one worker thread is alive, a block of job messages at
the front of the queue is executed wholesale, in order. -/
lemma drainAux_jobs (js : List Nat) (q : List Message) (st : SysState)
    (h : ¬st.alive = 0) :
    drainAux (js.map Message.NewJob ++ q) st
      = drainAux q { st with
          executed := st.executed ++ js
          log := st.log ++ jobsEvents st.workerDebug js.length } := by
  induction js generalizing st with
  | nil => simp [jobsEvents]
  | cons j js ih =>
      rw [List.map_cons, List.cons_append, drainAux_newJob j _ st h, ih]
      · simp [jobsEvents, List.append_assoc]
      · exact h

/-- Exactly `a` terminate messages bring `a` live worker threads down to
zero, consuming the whole block. -/
lemma drainAux_terms (a : Nat) (st : SysState) (h : st.alive = a) :
    drainAux (List.replicate a Message.Terminate) st
      = { st with alive := 0, log := st.log ++ termsEvents st.workerDebug a } := by
  induction a generalizing st with
  | zero =>
      simp only [List.replicate_zero, drainAux_nil, termsEvents, List.append_nil]
      rw [← h]
  | succ n ih =>
      have hne : ¬st.alive = 0 := by omega
      rw [List.replicate_succ, drainAux_terminate _ st hne, ih]
      · simp [termsEvents, List.append_assoc]
      · simp [h]

/-- Draining a queue of `js` job messages followed by exactly `alive`
terminate messages: every job runs, every thread exits, nothing is left. -/
lemma drain_jobs_terms (st : SysState) (js : List Nat) (n : Nat)
    (hq : st.queue = js.map Message.NewJob ++ List.replicate n Message.Terminate)
    (ha : st.alive = n) (hpos : ¬st.alive = 0) :
    st.drain = { st with
      queue := []
      alive := 0
      executed := st.executed ++ js
      log := st.log ++ jobsEvents st.workerDebug js.length ++ termsEvents st.workerDebug n } := by
  unfold SysState.drain
  rw [hq]
  rw [drainAux_jobs js (List.replicate n Message.Terminate) { st with queue := [] } hpos]
  rw [drainAux_terms n]
  exact ha

/-- Running `join()` on a pool in its normal running configuration —
`js` pending job messages, one live thread per worker: every pending job
is executed, one `Terminate` is consumed per worker, every thread exits
and is reaped in vector order, and the pool stops running. -/
lemma join_run (st : SysState) (js : List Nat)
    (hq : st.queue = js.map Message.NewJob)
    (halive : st.alive = st.pool.workers.length)
    (hpos : ¬st.alive = 0) :
    st.join = Outcome.ok
      { pool := { workers := st.pool.workers.map (fun w => { w with thread := none })
                  debug := st.pool.debug
                  is_running := false }
        queue := []
        alive := 0
        workerDebug := st.workerDebug
        executed := st.executed ++ js
        log := st.log ++ jobsEvents st.workerDebug js.length
                ++ termsEvents st.workerDebug st.pool.workers.length } := by
  have h1 : ¬(st.pool.workers.length ≠ 0 ∧ st.alive = 0) := fun hc => hpos hc.2
  have hd := drain_jobs_terms
    { st with queue := st.queue ++ List.replicate st.pool.workers.length Message.Terminate }
    js st.pool.workers.length (by simp [hq]) halive hpos
  unfold SysState.join
  rw [if_neg h1, hd]
  unfold joinPhase2
  rw [if_neg (by simp)]
  simp [Worker.takeJoin_fst]

/-- Running the implicit shutdown (`Drop`) on a pool in its normal
running configuration: same broadcast-and-reap sequence as `join`, except
that the log differs and `is_running` is left untouched. -/
lemma drop_run (st : SysState) (js : List Nat)
    (hrun : st.pool.is_running = true)
    (hq : st.queue = js.map Message.NewJob)
    (halive : st.alive = st.pool.workers.length)
    (hpos : ¬st.alive = 0) :
    ∃ st', st.drop = Outcome.ok st'
      ∧ st'.pool.workers = st.pool.workers.map (fun w => { w with thread := none })
      ∧ st'.pool.is_running = st.pool.is_running
      ∧ st'.alive = 0
      ∧ st'.queue = []
      ∧ st'.executed = st.executed ++ js := by
  have hd := drain_jobs_terms
    { st with
      queue := st.queue ++ List.replicate st.pool.workers.length Message.Terminate
      log := if st.pool.debug then
          (if st.pool.debug then st.log ++ [LogEvent.sendingTerminateAll] else st.log)
            ++ [LogEvent.shuttingDownAll]
        else if st.pool.debug then st.log ++ [LogEvent.sendingTerminateAll] else st.log }
    js st.pool.workers.length (by simp [hq]) halive hpos
  unfold SysState.drop SysState.dropBody
  rw [if_neg (by simp [hrun]), if_neg (fun hc => hpos hc.2)]
  rw [hd]
  unfold dropPhase2
  rw [if_neg (by simp)]
  exact ⟨_, rfl, by simp [Worker.takeJoin_fst], rfl, rfl, rfl, rfl⟩

/-- If `join()` returns normally, the resulting pool is no longer
running. -/
lemma join_ok_not_running {st st' : SysState} (h : st.join = Outcome.ok st') :
    st'.pool.is_running = false := by
  unfold SysState.join at h
  split at h
  · exact Outcome.noConfusion h
  · unfold joinPhase2 at h
    split at h
    · exact Outcome.noConfusion h
    · rw [Outcome.ok.injEq] at h
      subst h
      rfl

/-- If `join()` returns normally, every worker handle has been taken. -/
lemma join_ok_threads_none {st st' : SysState} (h : st.join = Outcome.ok st') :
    ∀ w ∈ st'.pool.workers, w.thread = none := by
  unfold SysState.join at h
  split at h
  · exact Outcome.noConfusion h
  · unfold joinPhase2 at h
    split at h
    · exact Outcome.noConfusion h
    · rw [Outcome.ok.injEq] at h
      subst h
      intro w hw
      simp only [List.mem_map] at hw
      obtain ⟨v, _, rfl⟩ := hw
      rw [Worker.takeJoin_fst]

/-- `Drop` on a pool that is no longer running returns immediately after
the first debug line: no message is sent, no state is touched. -/
lemma drop_not_running (st : SysState) (h : st.pool.is_running = false) :
    st.drop = Outcome.ok { st with
      log := if st.pool.debug then st.log ++ [LogEvent.sendingTerminateAll] else st.log } := by
  unfold SysState.drop SysState.dropBody
  rw [if_pos h]

/- Commutation of the debug-erasure `strip` with every operation: the
debug flags steer nothing but the log. -/

lemma strip_alive (st : SysState) : st.strip.alive = st.alive := rfl

lemma strip_workers (st : SysState) : st.strip.pool.workers = st.pool.workers := rfl

lemma strip_is_running (st : SysState) : st.strip.pool.is_running = st.pool.is_running := rfl

lemma execute_strip (st : SysState) (j : Nat) :
    (st.execute j).strip = st.strip.execute j := by
  unfold SysState.execute
  simp only [strip_alive, strip_is_running]
  by_cases h1 : st.pool.is_running = false
  · rw [if_pos h1, if_pos h1]
    exact rfl
  · rw [if_neg h1, if_neg h1]
    by_cases h2 : st.alive = 0
    · rw [if_pos h2, if_pos h2]
      exact rfl
    · rw [if_neg h2, if_neg h2]
      exact rfl

lemma drainAux_strip (q : List Message) :
    ∀ st : SysState, (drainAux q st).strip = drainAux q st.strip := by
  induction q with
  | nil => intro st; rfl
  | cons m rest ih =>
      intro st
      by_cases h : st.alive = 0
      · unfold drainAux
        simp only [strip_alive]
        rw [if_pos h, if_pos h]
        exact rfl
      · cases m with
        | NewJob j =>
            rw [drainAux_newJob j rest st h, drainAux_newJob j rest st.strip h, ih]
            exact rfl
        | Terminate =>
            rw [drainAux_terminate rest st h, drainAux_terminate rest st.strip h, ih]
            exact rfl

lemma drain_strip (st : SysState) : st.drain.strip = st.strip.drain := by
  unfold SysState.drain
  rw [drainAux_strip]
  exact rfl

lemma joinPhase2_strip (st : SysState) :
    (joinPhase2 st).strip = joinPhase2 st.strip := by
  unfold joinPhase2
  simp only [strip_alive, strip_workers]
  by_cases h : st.alive ≠ 0 ∧ st.pool.workers.any (fun w => w.thread.isSome)
  · rw [if_pos h, if_pos h]
    exact rfl
  · rw [if_neg h, if_neg h]
    exact rfl

lemma join_strip (st : SysState) : st.join.strip = st.strip.join := by
  unfold SysState.join
  simp only [strip_alive, strip_workers]
  by_cases h : st.pool.workers.length ≠ 0 ∧ st.alive = 0
  · rw [if_pos h, if_pos h]
    exact rfl
  · rw [if_neg h, if_neg h, joinPhase2_strip, drain_strip]
    exact rfl

lemma dropPhase2_strip (st : SysState) :
    (dropPhase2 st).strip = dropPhase2 st.strip := by
  unfold dropPhase2
  simp only [strip_alive, strip_workers]
  by_cases h : st.alive ≠ 0 ∧ st.pool.workers.any (fun w => w.thread.isSome)
  · rw [if_pos h, if_pos h]
    exact rfl
  · rw [if_neg h, if_neg h]
    exact rfl

lemma dropBody_strip (st : SysState) :
    (st.dropBody).strip = st.strip.dropBody := by
  unfold SysState.dropBody
  simp only [strip_alive, strip_workers, strip_is_running]
  by_cases h1 : st.pool.is_running = false
  · rw [if_pos h1, if_pos h1]
    exact rfl
  · rw [if_neg h1, if_neg h1]
    by_cases h2 : st.pool.workers.length ≠ 0 ∧ st.alive = 0
    · rw [if_pos h2, if_pos h2]
      exact rfl
    · rw [if_neg h2, if_neg h2, dropPhase2_strip, drain_strip]
      exact rfl

lemma drop_strip (st : SysState) : st.drop.strip = st.strip.drop := by
  unfold SysState.drop
  rw [dropBody_strip]
  exact rfl

lemma runCmd_strip (st : SysState) (c : Cmd) :
    (runCmd st c).strip = runCmd st.strip c := by
  cases c with
  | exec j => exact execute_strip st j
  | joinPool => exact join_strip st
  | dropPool => exact drop_strip st

lemma runCmds_strip (cs : List Cmd) :
    ∀ st : SysState, (runCmds st cs).strip = runCmds st.strip cs := by
  induction cs with
  | nil => intro st; rfl
  | cons c cs ih =>
      intro st
      have hc := runCmd_strip st c
      cases hrc : runCmd st c with
      | ok st1 =>
          rw [hrc] at hc
          unfold runCmds
          rw [hrc, ← hc]
          exact ih st1
      | panicked m s =>
          rw [hrc] at hc
          unfold runCmds
          rw [hrc, ← hc]
          rfl
      | deadlock s =>
          rw [hrc] at hc
          unfold runCmds
          rw [hrc, ← hc]
          rfl

/- Claim theorems. -/

/-- C1, counterexample: the claim says `new(0)` substitutes the host's
logical CPU count and produces a pool; the source instead opens with
`assert!(size > 0)` (src/lib.rs line 18), so `ThreadPool::new(0)` panics
and produces no pool at all — no CPU-count lookup exists in the crate. -/
theorem c1_new_zero_produces_no_pool : ThreadPool.new 0 = none := rfl

/-- C1, amended: `new(0)` fails the `size > 0` assertion (no CPU-count
substitution); for every positive `size`, `new(size)` yields a running
pool of exactly `size` workers with ids `0..size`, all threads alive. -/
theorem c1_new_pos_spawns_size_workers (s : Nat) (h : s ≠ 0) :
    ∃ st, ThreadPool.new s = some st
      ∧ st.pool.workers.length = s
      ∧ st.pool.workers.map Worker.id = List.range s
      ∧ st.pool.is_running = true
      ∧ st.alive = s := by
  refine ⟨{ pool := { workers := (List.range s).map mkWorker
                      debug := false
                      is_running := true }
            queue := []
            alive := s
            workerDebug := false
            executed := []
            log := [] }, ?_, ?_, ?_, rfl, rfl⟩
  · simp [ThreadPool.new, h]
  · simp
  · simp only [List.map_map]
    exact List.map_id (List.range s)

/-- C1 witness: `new(4)` at a concrete size. -/
theorem c1_new_pos_spawns_size_workers_witness :
    ∃ st, ThreadPool.new 4 = some st
      ∧ st.pool.workers.length = 4
      ∧ st.pool.workers.map Worker.id = List.range 4
      ∧ st.pool.is_running = true
      ∧ st.alive = 4 :=
  c1_new_pos_spawns_size_workers 4 (by decide)

/-- C2, counterexample: on a 1-worker pool, `join()` followed by a second
`join()` is not a no-op: the second call's first
`send(Message::Terminate).unwrap()` panics, because every worker thread —
the only holders of the channel receiver — has already exited. -/
theorem c2_second_join_panics :
    ThreadPool.new 1 = some pool1
      ∧ pool1.join = Outcome.ok joined1
      ∧ joined1.join = Outcome.panicked sendFailMsg joined1 := by
  refine ⟨rfl, by decide, by decide⟩

/-- C2, amended: after `join()` has completed, discarding the pool
(implicit shutdown) is a safe no-op — the `is_running` guard in `Drop`
returns early, sending no `Terminate` and leaving the whole state
unchanged except for the unconditional first debug line; a second
explicit `join()`, however, panics on its first `Terminate` send (see the
counterexample). -/
theorem c2_join_then_drop_noop (st st' : SysState) (h : st.join = Outcome.ok st') :
    st'.drop = Outcome.ok { st' with
      log := if st'.pool.debug then st'.log ++ [LogEvent.sendingTerminateAll] else st'.log } :=
  drop_not_running st' (join_ok_not_running h)

/-- C2 witness: join-then-drop on the concrete 1-worker pool. -/
theorem c2_join_then_drop_noop_witness :
    joined1.drop = Outcome.ok { joined1 with
      log := if joined1.pool.debug then joined1.log ++ [LogEvent.sendingTerminateAll]
        else joined1.log } :=
  c2_join_then_drop_noop pool1 joined1 (by decide)

/-- C3: once `join()` has completed, every further `execute` call panics
immediately with the descriptive shutdown message, leaving the state
untouched — it neither silently succeeds nor hangs. -/
theorem c3_execute_after_join_panics (st st' : SysState) (j : Nat)
    (h : st.join = Outcome.ok st') :
    st'.execute j = Outcome.panicked execMsgShutdown st' := by
  unfold SysState.execute
  rw [if_pos (join_ok_not_running h)]

/-- C3 witness: `execute(42)` after `join()` on the concrete pool. -/
theorem c3_execute_after_join_panics_witness :
    joined1.execute 42 = Outcome.panicked execMsgShutdown joined1 :=
  c3_execute_after_join_panics pool1 joined1 42 (by decide)

/-- C4: the first `join()` on a running pool of N workers (pending
messages all jobs, every thread alive) enqueues exactly one `Terminate`
per worker (`List.replicate` of the worker count inside `SysState.join`),
drains them all — `alive` drops from N to 0 and the queue ends empty —
reaps every worker in vector (= id) order (the order-preserving `map`
over the worker list, every handle now `none`), and finally sets the
running flag to false. -/
theorem c4_first_join_broadcasts_and_reaps (st : SysState) (js : List Nat)
    (hq : st.queue = js.map Message.NewJob)
    (halive : st.alive = st.pool.workers.length)
    (hpos : ¬st.alive = 0) :
    st.join = Outcome.ok
      { pool := { workers := st.pool.workers.map (fun w => { w with thread := none })
                  debug := st.pool.debug
                  is_running := false }
        queue := []
        alive := 0
        workerDebug := st.workerDebug
        executed := st.executed ++ js
        log := st.log ++ jobsEvents st.workerDebug js.length
                ++ termsEvents st.workerDebug st.pool.workers.length } :=
  join_run st js hq halive hpos

/-- C4 witness: `join()` on the concrete fresh 1-worker pool. -/
theorem c4_first_join_broadcasts_and_reaps_witness :
    pool1.join = Outcome.ok joined1 :=
  c4_first_join_broadcasts_and_reaps pool1 [] rfl rfl (by decide)

/-- C5: discarding a still-running pool performs the same
Terminate-broadcast-and-join sequence as `join()`: all pending jobs run,
and afterwards the count of still-running worker threads is 0 and every
handle has been taken. -/
theorem c5_drop_reaps_all_workers (st : SysState) (js : List Nat)
    (hrun : st.pool.is_running = true)
    (hq : st.queue = js.map Message.NewJob)
    (halive : st.alive = st.pool.workers.length)
    (hpos : ¬st.alive = 0) :
    ∃ st', st.drop = Outcome.ok st'
      ∧ st'.alive = 0
      ∧ st'.pool.workers = st.pool.workers.map (fun w => { w with thread := none })
      ∧ st'.executed = st.executed ++ js
      ∧ st'.queue = [] := by
  obtain ⟨st', h, hw, hr, ha, hqq, he⟩ := drop_run st js hrun hq halive hpos
  exact ⟨st', h, ha, hw, he, hqq⟩

/-- C5 witness: dropping the concrete 1-worker pool with one pending job. -/
theorem c5_drop_reaps_all_workers_witness :
    ∃ st', poolWithJob.drop = Outcome.ok st'
      ∧ st'.alive = 0
      ∧ st'.pool.workers = poolWithJob.pool.workers.map (fun w => { w with thread := none })
      ∧ st'.executed = poolWithJob.executed ++ [7]
      ∧ st'.queue = [] :=
  c5_drop_reaps_all_workers poolWithJob [7] rfl rfl rfl (by decide)

/-- C6: every job enqueued before shutdown begins is executed: the
`Terminate` messages are appended after all pending `NewJob` messages and
the shared queue is FIFO, so the drain performed by `join()` runs every
pending job (they all land in the executed trace) before any thread
exits for good. -/
theorem c6_jobs_enqueued_before_shutdown_all_run (st : SysState) (js : List Nat)
    (hq : st.queue = js.map Message.NewJob)
    (halive : st.alive = st.pool.workers.length)
    (hpos : ¬st.alive = 0) :
    ∃ st', st.join = Outcome.ok st'
      ∧ st'.executed = st.executed ++ js
      ∧ ∀ j ∈ js, j ∈ st'.executed := by
  refine ⟨_, join_run st js hq halive hpos, rfl, ?_⟩
  intro j hj
  exact List.mem_append_right _ hj

/-- C6 witness: the job enqueued in `poolWithJob` is executed by `join()`. -/
theorem c6_jobs_enqueued_before_shutdown_all_run_witness :
    ∃ st', poolWithJob.join = Outcome.ok st'
      ∧ st'.executed = poolWithJob.executed ++ [7]
      ∧ ∀ j ∈ [7], j ∈ st'.executed :=
  c6_jobs_enqueued_before_shutdown_all_run poolWithJob [7] rfl rfl (by decide)

/-- C7: a worker's handle goes `Some` to `None` exactly once — the take
on a `Some` handle joins the thread and leaves `None`; the take on a
`None` handle is a no-op that performs no join; a second take after a
successful one never joins again; and after `join()` returns, every
worker's handle is `None`, so any later take (for instance from `Drop`)
finds `None`. -/
theorem c7_handle_some_to_none_exactly_once :
    (∀ i : Nat, Worker.takeJoin { id := i, thread := some () }
        = ({ id := i, thread := none }, true))
    ∧ (∀ i : Nat, Worker.takeJoin { id := i, thread := none }
        = ({ id := i, thread := none }, false))
    ∧ (∀ w : Worker, w.takeJoin.1.takeJoin = (w.takeJoin.1, false))
    ∧ (∀ st st' : SysState, st.join = Outcome.ok st' →
        ∀ w ∈ st'.pool.workers, w.thread = none) := by
  refine ⟨fun i => rfl, fun i => rfl, fun w => ?_, fun st st' h => join_ok_threads_none h⟩
  rw [Worker.takeJoin_fst]
  rfl

/-- C7 witness: the concrete worker of the joined pool. -/
theorem c7_handle_some_to_none_exactly_once_witness :
    Worker.takeJoin { id := 0, thread := some () } = ({ id := 0, thread := none }, true)
      ∧ ({ id := 0, thread := none } : Worker).thread = none :=
  ⟨c7_handle_some_to_none_exactly_once.1 0,
    c7_handle_some_to_none_exactly_once.2.2.2 pool1 joined1 (by decide)
      { id := 0, thread := none } (by decide)⟩

/-- C8: for every positive size and every sequence of pool operations,
the pool built by `new_with_debug(size)` behaves exactly like the pool
built by `new(size)` once the debug flags and the log are erased: same
outcome kind and panic message, same queue, workers, executed jobs and
running flag — the debug flag affects log verbosity only. -/
theorem c8_debug_flag_is_log_only (s : Nat) (hs : s ≠ 0) (cs : List Cmd) :
    ∃ a b, ThreadPool.new_with_debug s = some a
      ∧ ThreadPool.new s = some b
      ∧ (runCmds a cs).strip = (runCmds b cs).strip := by
  refine ⟨{ pool := { workers := (List.range s).map mkWorker
                      debug := true
                      is_running := true }
            queue := []
            alive := s
            workerDebug := true
            executed := []
            log := [] },
          { pool := { workers := (List.range s).map mkWorker
                      debug := false
                      is_running := true }
            queue := []
            alive := s
            workerDebug := false
            executed := []
            log := [] }, ?_, ?_, ?_⟩
  · simp [ThreadPool.new_with_debug, hs]
  · simp [ThreadPool.new, hs]
  · rw [runCmds_strip, runCmds_strip]
    exact rfl

/-- C8 witness: a concrete run submitting one job then joining. -/
theorem c8_debug_flag_is_log_only_witness :
    ∃ a b, ThreadPool.new_with_debug 1 = some a
      ∧ ThreadPool.new 1 = some b
      ∧ (runCmds a [Cmd.exec 5, Cmd.joinPool]).strip
          = (runCmds b [Cmd.exec 5, Cmd.joinPool]).strip :=
  c8_debug_flag_is_log_only 1 (by decide) [Cmd.exec 5, Cmd.joinPool]

/-- C9: when the send inside `execute` fails because every worker thread
(the only queue consumers) has exited, the `.unwrap()` surfaces the
failure as an immediate panic: the returned state is the input state
itself — the message is not enqueued, not silently dropped into the
queue, and never retried. -/
theorem c9_send_failure_is_loud (st : SysState) (j : Nat)
    (hrun : st.pool.is_running = true)
    (hdead : st.alive = 0) :
    st.execute j = Outcome.panicked sendFailMsg st := by
  unfold SysState.execute
  rw [if_neg (by simp [hrun]), if_pos hdead]

/-- C9 witness: a pool whose single worker thread has exited while the
pool still believes it is running. -/
theorem c9_send_failure_is_loud_witness :
    orphanedPool.execute 3 = Outcome.panicked sendFailMsg orphanedPool :=
  c9_send_failure_is_loud orphanedPool 3 rfl rfl

/-- C10: calling `execute` on a pool whose running flag is false panics
before any message is constructed or enqueued — the `panic!` precedes the
`Box::new` and the `send` in the source, and the state carried by the
panic is exactly the input state: queue, workers and flags unchanged. -/
theorem c10_execute_when_not_running_changes_nothing (st : SysState) (j : Nat)
    (h : st.pool.is_running = false) :
    st.execute j = Outcome.panicked execMsgShutdown st := by
  unfold SysState.execute
  rw [if_pos h]

/-- C10 witness: `execute(9)` on the concrete joined pool. -/
theorem c10_execute_when_not_running_changes_nothing_witness :
    joined1.execute 9 = Outcome.panicked execMsgShutdown joined1 :=
  c10_execute_when_not_running_changes_nothing joined1 9 rfl

end Multithreading
